import Mathlib

/-!
Shallow embedding of the BACnet MS/TP datalink port for the PIC32MX795F512L
(murr2k/bacnet-stack, `ports/pic32mx795f512l/rs485.c` and the firmware main
file holding the `mstimer` service), together with proofs about the claims
of the specification.

The C sources are single-threaded with interrupt-driven globals; we embed
them as pure functions with explicit state passing.  Machine integers are
modelled as `Nat` with explicit reduction modulo `2 ^ 32` at the points
where the C code relies on `uint32_t` wraparound.
-/

namespace BacnetMstp

/-- Modulus of the 32-bit unsigned arithmetic used by the tick counter. -/
def U32 : Nat := 2 ^ 32

/-- MS/TP broadcast MAC address (0xFF), from `bacnet/datalink/mstp.h`. -/
def MSTP_BROADCAST_ADDRESS : Nat := 255

/-- Peripheral clock frequency, `GetPeripheralClock()` in `hardware.h`
(80 MHz system clock, FPBDIV = 1). -/
def GetPeripheralClock : Nat := 80000000

/-- MS/TP frame types used by the port (values of the `FRAME_TYPE_*`
constants of `bacnet/datalink/mstp.h`; only their identity matters to the
embedded code, so we model them as an inductive type). -/
inductive FrameType where
  | token
  | pollForMaster
  | replyToPollForMaster
  | testRequest
  | testResponse
  | bacnetDataExpectingReply
  | bacnetDataNotExpectingReply
  | replyPostponed
  deriving DecidableEq, Repr

/-- The fields of `BACNET_ADDRESS` that the port reads or writes:
`mac_len`, `mac[0]`, `net` and `len`. -/
structure BacnetAddress where
  mac_len : Nat
  mac0 : Nat
  net : Nat
  adr_len : Nat
  deriving DecidableEq, Repr

/-- The single field of `BACNET_NPDU_DATA` the port reads. -/
structure NpduData where
  data_expecting_reply : Bool
  deriving DecidableEq, Repr

/-- The static `Transmit_Packet` record of `rs485.c` (dlmstp part):
`ready`, `destination`, `frame_type`, `pdu[MAX_MPDU]`, `pdu_len`.
The `pdu` buffer is modelled by the list of its staged bytes. -/
structure TransmitPacket where
  ready : Bool
  destination : Nat
  frame_type : FrameType
  pdu : List Nat
  pdu_len : Nat
  deriving DecidableEq, Repr

/-- The fields of `struct mstp_port_struct_t` that the port's own code
reads or writes, plus `resetGen`, an instrumentation counter that records
how many times `MSTP_Init` has been run on the port (the C state machine
internals that `MSTP_Init` re-initializes live in the upstream library and
are not part of this embedding). -/
structure MstpPort where
  thisStation : Nat
  nmaxMaster : Nat
  nmaxInfoFrames : Nat
  silenceTimer : Nat
  destinationAddress : Nat
  sourceAddress : Nat
  frameType : FrameType
  dataLength : Nat
  inputBuffer : List Nat
  outputBufferSize : Nat
  resetGen : Nat
  deriving DecidableEq, Repr

/-- Modelled from the spec: `MSTP_Init` belongs to the upstream MS/TP
library (`bacnet/datalink/mstp.c`), which is not part of this repository
snapshot; the spec says re-configuring the station address forces a
state-machine reset, i.e. the state machine internals are re-initialized
while the caller-installed configuration stays.  We record the reset by
bumping the `resetGen` instrumentation counter. -/
def MSTP_Init (p : MstpPort) : MstpPort :=
  { p with resetGen := p.resetGen + 1 }

/-- The static configuration and transmit-slot state of the dlmstp part of
`rs485.c`: `This_Station`, `Max_Master`, `Max_Info_Frames`,
`Transmit_Packet` and `MSTP_Port`. -/
structure DlmstpState where
  thisStation : Nat
  maxMaster : Nat
  maxInfoFrames : Nat
  transmit : TransmitPacket
  port : MstpPort
  deriving DecidableEq, Repr

/-- Initial values of the statics of `rs485.c`: `This_Station = 1`,
`Max_Master = 127`, `Max_Info_Frames = 1`; `Transmit_Packet` and
`MSTP_Port` are zero-initialized. -/
def initState : DlmstpState :=
  { thisStation := 1
    maxMaster := 127
    maxInfoFrames := 1
    transmit :=
      { ready := false, destination := 0, frame_type := .token,
        pdu := [], pdu_len := 0 }
    port :=
      { thisStation := 0, nmaxMaster := 0, nmaxInfoFrames := 0,
        silenceTimer := 0, destinationAddress := 0, sourceAddress := 0,
        frameType := .token, dataLength := 0, inputBuffer := [],
        outputBufferSize := 0, resetGen := 0 } }

/-! ## Millisecond timer service (firmware main file)

`millisecond_counter` is a `volatile uint32_t` incremented by the 1 ms
Timer1 interrupt; the `mstimer` helpers compute `uint32_t` differences
against it.  We pass the counter value explicitly as `now`. -/

/-- The `struct mstimer` fields used by the timer helpers. -/
structure Mstimer where
  start : Nat
  interval : Nat
  deriving DecidableEq, Repr

/-- Wrapping 32-bit subtraction: the value of the C expression `a - b` on
`uint32_t` operands (operands reduced mod `2 ^ 32` first, as storage would). -/
def u32_sub (a b : Nat) : Nat :=
  (a % U32 + (U32 - b % U32)) % U32

/-- The C function `mstimer_now`: returns `millisecond_counter`. -/
def mstimer_now (millisecondCounter : Nat) : Nat :=
  millisecondCounter

/-- The C function `mstimer_elapsed`: `millisecond_counter - t->start` on
`uint32_t`, `0` for a NULL timer pointer. -/
def mstimer_elapsed (now : Nat) (t : Option Mstimer) : Nat :=
  match t with
  | some t => u32_sub now t.start
  | none => 0

/-- The C function `mstimer_expired`:
`(millisecond_counter - t->start) >= t->interval`, true for NULL. -/
def mstimer_expired (now : Nat) (t : Option Mstimer) : Bool :=
  match t with
  | some t => decide (t.interval ≤ u32_sub now t.start)
  | none => true

/-! ## RS-485 byte transport (baud-rate configuration) -/

/-- The UART1 baud-rate generator register, the only configuration state
written by `RS485_Set_Baud_Rate`. -/
structure Rs485State where
  u1brg : Nat
  deriving DecidableEq, Repr

/-- The C function `RS485_Set_Baud_Rate` (hardware build):
`U1BRG = (GetPeripheralClock() / (4 * baud)) - 1` on `uint32_t`
(high-speed mode BRG formula). -/
def RS485_Set_Baud_Rate (baud : Nat) (s : Rs485State) : Rs485State :=
  { s with
    u1brg := (GetPeripheralClock / ((4 * baud) % U32) + (U32 - 1)) % U32 }

/-- The C function `dlmstp_set_baud_rate`: a `switch` accepting exactly the
six PICS baud rates, configuring the UART and returning `true` on a listed
rate, returning `false` otherwise. -/
def dlmstp_set_baud_rate (baud : Nat) (s : Rs485State) : Bool × Rs485State :=
  if baud = 9600 ∨ baud = 19200 ∨ baud = 38400 ∨ baud = 57600 ∨
      baud = 76800 ∨ baud = 115200 then
    (true, RS485_Set_Baud_Rate baud s)
  else
    (false, s)

/-- The enumerated set of acceptable baud rates, as listed by the spec. -/
def validBauds : List Nat := [9600, 19200, 38400, 57600, 76800, 115200]

/-! ## Datalink facade: send, configuration, rx event -/

/-- The C function `dlmstp_send_pdu`.  `maxMPDU` is the `MAX_MPDU` buffer
capacity (a build-time constant of the upstream headers; the code only
compares against it, so it is a parameter here).  A NULL `pdu` is `none`;
`memcpy(Transmit_Packet.pdu, pdu, pdu_len)` stages the first `pdu_len`
bytes of the payload. -/
def dlmstp_send_pdu (maxMPDU : Nat) (st : DlmstpState)
    (dest : Option BacnetAddress) (npdu : Option NpduData)
    (pdu : Option (List Nat)) (pdu_len : Nat) : Int × DlmstpState :=
  match pdu with
  | none => (-1, st)
  | some payload =>
    if pdu_len = 0 ∨ maxMPDU < pdu_len then
      (-1, st)
    else if st.transmit.ready = true then
      (-2, st)
    else
      let destination_mac : Nat :=
        match dest with
        | some d => if d.mac_len = 1 then d.mac0 else MSTP_BROADCAST_ADDRESS
        | none => MSTP_BROADCAST_ADDRESS
      let frame_type : FrameType :=
        match npdu with
        | some nd =>
          if nd.data_expecting_reply then .bacnetDataExpectingReply
          else .bacnetDataNotExpectingReply
        | none => .bacnetDataNotExpectingReply
      ((pdu_len : Int),
        { st with
          transmit :=
            { ready := true
              destination := destination_mac
              frame_type := frame_type
              pdu := payload.take pdu_len
              pdu_len := pdu_len } })

/-- The C function `dlmstp_set_mac_address`: apply only when
`mac_address <= 254`; re-run `MSTP_Init` when the port held a different
station address. -/
def dlmstp_set_mac_address (mac : Nat) (st : DlmstpState) : DlmstpState :=
  if mac ≤ 254 then
    let st1 := { st with thisStation := mac }
    if st1.port.thisStation ≠ mac then
      { st1 with port := MSTP_Init { st1.port with thisStation := mac } }
    else
      st1
  else
    st

/-- The C function `dlmstp_set_max_master`: apply only when
`max_master <= 127`. -/
def dlmstp_set_max_master (m : Nat) (st : DlmstpState) : DlmstpState :=
  if m ≤ 127 then
    { st with maxMaster := m, port := { st.port with nmaxMaster := m } }
  else
    st

/-- The C function `dlmstp_set_max_info_frames`: apply only when
`max_info_frames >= 1`. -/
def dlmstp_set_max_info_frames (n : Nat) (st : DlmstpState) : DlmstpState :=
  if 1 ≤ n then
    { st with
      maxInfoFrames := n
      port := { st.port with nmaxInfoFrames := n } }
  else
    st

/-- The C function `dlmstp_rs485_rx_event` (called from the UART RX ISR for
every received byte): `MSTP_Port.SilenceTimer = 0`. -/
def dlmstp_rs485_rx_event (st : DlmstpState) : DlmstpState :=
  { st with port := { st.port with silenceTimer := 0 } }

/-- The C callback `MSTP_SilenceTimer`: ignores its port argument and
returns `mstimer_now()`, the free-running millisecond counter. -/
def MSTP_SilenceTimer (millisecondCounter : Nat) (st : DlmstpState) : Nat :=
  let _ := st
  mstimer_now millisecondCounter

/-- One configuration-setter call, for stating the range invariant over
arbitrary call sequences. -/
inductive ConfigCall where
  | setMacAddress (mac : Nat)
  | setMaxMaster (m : Nat)
  | setMaxInfoFrames (n : Nat)
  deriving DecidableEq, Repr

/-- Apply one configuration-setter call. -/
def applyConfig (c : ConfigCall) (st : DlmstpState) : DlmstpState :=
  match c with
  | .setMacAddress mac => dlmstp_set_mac_address mac st
  | .setMaxMaster m => dlmstp_set_max_master m st
  | .setMaxInfoFrames n => dlmstp_set_max_info_frames n st

/-- Apply a sequence of configuration-setter calls, first call first. -/
def applyConfigs (cs : List ConfigCall) (st : DlmstpState) : DlmstpState :=
  cs.foldl (fun s c => applyConfig c s) st

/-- The configuration range invariant of the spec: station address in
0 to 254, max master in 0 to 127, max info frames at least 1. -/
def ConfigInv (st : DlmstpState) : Prop :=
  st.thisStation ≤ 254 ∧ st.maxMaster ≤ 127 ∧ 1 ≤ st.maxInfoFrames

instance (st : DlmstpState) : Decidable (ConfigInv st) := by
  unfold ConfigInv; infer_instance

/-! ## MS/TP state-machine callbacks implemented by the port -/

/-- Shape of the upstream frame-builder `MSTP_Create_Frame`
(`bacnet/datalink/mstp.c`, not part of this repository snapshot): given
output-buffer capacity, frame type, destination, source, data and data
length, it returns the built frame length (0 when the buffer is too
small).  `MSTP_Get_Send` only branches on that returned length, so we
quantify over an arbitrary such function. -/
def CreateFrameFn : Type :=
  Nat → FrameType → Nat → Nat → List Nat → Nat → Nat

/-- The C callback `MSTP_Get_Send`: when a transmit packet is staged,
build the frame with `MSTP_Create_Frame` and clear `Transmit_Packet.ready`
exactly when the returned frame length is nonzero; return that length
(0 when nothing is staged).  The built frame bytes live in the port's
output buffer, which the port's own code never inspects, so only the
length is modelled. -/
def MSTP_Get_Send (cf : CreateFrameFn) (port : MstpPort)
    (tp : TransmitPacket) : Nat × TransmitPacket :=
  if tp.ready = true then
    let len := cf port.outputBufferSize tp.frame_type tp.destination
      port.thisStation tp.pdu tp.pdu_len
    if 0 < len then
      (len, { tp with ready := false })
    else
      (len, tp)
  else
    (0, tp)

/-- The static receive-side globals of `rs485.c` written by
`MSTP_Put_Receive`: `Receive_Address`, `Receive_PDU_Len`,
`Valid_Frame_Count`. -/
structure ReceiveGlobals where
  receiveAddress : BacnetAddress
  receivePduLen : Nat
  validFrameCount : Nat
  deriving DecidableEq, Repr

/-- Result of `MSTP_Put_Receive`: returned PDU length, updated globals,
and the upstream delivery — `some (src_address, buffer, len)` exactly when
the C code invokes `npdu_handler(&Receive_Address, InputBuffer, len)`. -/
structure PutReceiveResult where
  pduLen : Nat
  globals : ReceiveGlobals
  delivered : Option (BacnetAddress × List Nat × Nat)
  deriving DecidableEq, Repr

/-- The C callback `MSTP_Put_Receive`: when the frame's destination is this
station or broadcast, a BACnet data frame with nonzero length is handed to
`npdu_handler` (after recording source address and PDU length), a Test
Request only reports its length, anything else is ignored;
`Valid_Frame_Count` is incremented for every address-matching frame.
Frames addressed elsewhere produce no effect and return 0. -/
def MSTP_Put_Receive (port : MstpPort) (g : ReceiveGlobals) :
    PutReceiveResult :=
  if port.destinationAddress = port.thisStation ∨
      port.destinationAddress = MSTP_BROADCAST_ADDRESS then
    match port.frameType with
    | .bacnetDataNotExpectingReply | .bacnetDataExpectingReply =>
      if 0 < port.dataLength then
        let addr : BacnetAddress :=
          { mac_len := 1, mac0 := port.sourceAddress, net := 0, adr_len := 0 }
        { pduLen := port.dataLength
          globals :=
            { receiveAddress := addr
              receivePduLen := port.dataLength
              validFrameCount := g.validFrameCount + 1 }
          delivered := some (addr, port.inputBuffer, port.dataLength) }
      else
        { pduLen := 0
          globals := { g with validFrameCount := g.validFrameCount + 1 }
          delivered := none }
    | .testRequest =>
      { pduLen := port.dataLength
        globals := { g with validFrameCount := g.validFrameCount + 1 }
        delivered := none }
    | _ =>
      { pduLen := 0
        globals := { g with validFrameCount := g.validFrameCount + 1 }
        delivered := none }
  else
    { pduLen := 0, globals := g, delivered := none }

/-! ## Concrete instances used to exercise the theorems -/

/-- A staged transmit packet, as `dlmstp_send_pdu` leaves it. -/
def tpReady : TransmitPacket :=
  { ready := true, destination := 7,
    frame_type := .bacnetDataNotExpectingReply, pdu := [1, 2], pdu_len := 2 }

/-- An empty transmit slot. -/
def tpIdle : TransmitPacket :=
  { ready := false, destination := 0, frame_type := .token,
    pdu := [], pdu_len := 0 }

/-- A frame builder that always reports a 9-byte frame. -/
def cfNine : CreateFrameFn := fun _ _ _ _ _ _ => 9

/-- A frame builder that always fails (capacity too small). -/
def cfZero : CreateFrameFn := fun _ _ _ _ _ _ => 0

/-! ## Theorems about the claims -/

/-- Lemma: a single configuration-setter call preserves the configuration
range invariant. -/
theorem applyConfig_inv (c : ConfigCall) (st : DlmstpState)
    (h : ConfigInv st) : ConfigInv (applyConfig c st) := by
  obtain ⟨h1, h2, h3⟩ := h
  cases c with
  | setMacAddress mac =>
    simp only [applyConfig, dlmstp_set_mac_address]
    split_ifs <;> exact ⟨by simpa, by simpa using h2, by simpa using h3⟩
  | setMaxMaster m =>
    simp only [applyConfig, dlmstp_set_max_master]
    split_ifs <;> exact ⟨by simpa using h1, by simpa, by simpa using h3⟩
  | setMaxInfoFrames n =>
    simp only [applyConfig, dlmstp_set_max_info_frames]
    split_ifs <;> exact ⟨by simpa using h1, by simpa using h2, by simpa⟩

/-- Lemma: a sequence of configuration-setter calls preserves the
configuration range invariant. -/
theorem applyConfigs_inv (cs : List ConfigCall) (st : DlmstpState)
    (h : ConfigInv st) : ConfigInv (applyConfigs cs st) := by
  induction cs generalizing st with
  | nil => exact h
  | cons c cs ih => exact ih (applyConfig c st) (applyConfig_inv c st h)

/-- C5: for every stored start tick, interval, and current value of the
32-bit millisecond counter — including when the counter has wrapped so
that `now < start` — `mstimer_elapsed` returns `(now - start) mod 2^32`,
that value is non-negative, and `mstimer_expired` is true exactly when the
elapsed value is at least the interval. -/
theorem mstimer_wraparound_correct (start interval now : Nat)
    (hs : start < 2 ^ 32) (hn : now < 2 ^ 32) :
    ((mstimer_elapsed now (some ⟨start, interval⟩) : Int) =
        ((now : Int) - (start : Int)) % 2 ^ 32)
    ∧ 0 ≤ ((now : Int) - (start : Int)) % 2 ^ 32
    ∧ (mstimer_expired now (some ⟨start, interval⟩) = true ↔
        interval ≤ mstimer_elapsed now (some ⟨start, interval⟩)) := by
  refine ⟨?_, ?_, ?_⟩
  · simp only [mstimer_elapsed, u32_sub, U32]
    rw [Nat.mod_eq_of_lt hs, Nat.mod_eq_of_lt hn]
    omega
  · have h32 : ((2 : Int) ^ 32) ≠ 0 := by norm_num
    exact Int.emod_nonneg _ h32
  · simp [mstimer_expired, mstimer_elapsed]

/-- C5 witness: a wrapped counter (start near the top of the 32-bit range,
now past the wrap) still yields the small positive elapsed value. -/
theorem mstimer_wraparound_correct_witness :
    ((mstimer_elapsed 5 (some ⟨4294967290, 10⟩) : Int) =
        ((5 : Int) - (4294967290 : Int)) % 2 ^ 32)
    ∧ 0 ≤ ((5 : Int) - (4294967290 : Int)) % 2 ^ 32
    ∧ (mstimer_expired 5 (some ⟨4294967290, 10⟩) = true ↔
        10 ≤ mstimer_elapsed 5 (some ⟨4294967290, 10⟩)) :=
  mstimer_wraparound_correct 4294967290 10 5 (by norm_num) (by norm_num)

/-- C3 (code bug): `dlmstp_rs485_rx_event` does write zero into
`MSTP_Port.SilenceTimer`, but the silence-timer value the state machine
reads through the `MSTP_SilenceTimer` callback is the free-running
millisecond counter, which the event does not reset: with the counter at
5, `MSTP_SilenceTimer` still returns 5 (not 0) immediately after the
byte-received event. -/
theorem silence_timer_reset_ineffective :
    (dlmstp_rs485_rx_event initState).port.silenceTimer = 0
    ∧ MSTP_SilenceTimer 5 (dlmstp_rs485_rx_event initState) = 5
    ∧ MSTP_SilenceTimer 5 (dlmstp_rs485_rx_event initState) ≠ 0 :=
  ⟨rfl, rfl, by decide⟩

/-- C4: `dlmstp_set_baud_rate` accepts exactly the enumerated baud rates
9600, 19200, 38400, 57600, 76800 and 115200; on those it programs the
UART1 baud-rate generator with the high-speed BRG value and returns true,
and on every other value it returns false and leaves the configuration
unchanged. -/
theorem dlmstp_set_baud_rate_spec (s : Rs485State) (baud : Nat) :
    (baud ∈ validBauds →
      (dlmstp_set_baud_rate baud s).1 = true ∧
      (dlmstp_set_baud_rate baud s).2.u1brg =
        GetPeripheralClock / (4 * baud) - 1)
    ∧ (baud ∉ validBauds → dlmstp_set_baud_rate baud s = (false, s)) := by
  constructor
  · intro h
    simp only [validBauds, List.mem_cons, List.not_mem_nil, or_false] at h
    rcases h with rfl | rfl | rfl | rfl | rfl | rfl <;>
      refine ⟨by simp [dlmstp_set_baud_rate], ?_⟩ <;>
      simp [dlmstp_set_baud_rate, RS485_Set_Baud_Rate, GetPeripheralClock,
        U32]
  · intro h
    simp only [validBauds, List.mem_cons, List.not_mem_nil, or_false,
      not_or] at h
    obtain ⟨h1, h2, h3, h4, h5, h6⟩ := h
    simp [dlmstp_set_baud_rate, h1, h2, h3, h4, h5, h6]

/-- C4 witness: 9600 is accepted and programs the BRG register; the
spec's example 12345 is rejected without touching the state. -/
theorem dlmstp_set_baud_rate_spec_witness :
    ((dlmstp_set_baud_rate 9600 ⟨0⟩).1 = true ∧
      (dlmstp_set_baud_rate 9600 ⟨0⟩).2.u1brg =
        GetPeripheralClock / (4 * 9600) - 1)
    ∧ dlmstp_set_baud_rate 12345 ⟨0⟩ = (false, ⟨0⟩) :=
  ⟨(dlmstp_set_baud_rate_spec ⟨0⟩ 9600).1 (by decide),
    (dlmstp_set_baud_rate_spec ⟨0⟩ 12345).2 (by decide)⟩

/-- C1: while a transmit packet is staged (`Transmit_Packet.ready`), any
further `dlmstp_send_pdu` call returns a negative error and leaves the
whole datalink state — in particular the staged packet's destination,
frame type, payload bytes, payload length and pending flag — unchanged. -/
theorem dlmstp_send_pdu_busy_rejected (maxMPDU : Nat) (st : DlmstpState)
    (dest : Option BacnetAddress) (npdu : Option NpduData)
    (pdu : Option (List Nat)) (pdu_len : Nat)
    (hready : st.transmit.ready = true) :
    (dlmstp_send_pdu maxMPDU st dest npdu pdu pdu_len).1 < 0
    ∧ (dlmstp_send_pdu maxMPDU st dest npdu pdu pdu_len).2 = st := by
  cases pdu with
  | none => exact ⟨by norm_num [dlmstp_send_pdu], rfl⟩
  | some p =>
    by_cases h1 : pdu_len = 0 ∨ maxMPDU < pdu_len
    · refine ⟨?_, ?_⟩ <;> simp [dlmstp_send_pdu, h1]
    · refine ⟨?_, ?_⟩ <;> simp [dlmstp_send_pdu, h1, hready]

/-- C1 witness: with a packet already staged, a second well-formed send is
rejected and the state is untouched. -/
theorem dlmstp_send_pdu_busy_rejected_witness :
    (dlmstp_send_pdu 501 { initState with transmit := tpReady } none none
        (some [9, 9]) 2).1 < 0
    ∧ (dlmstp_send_pdu 501 { initState with transmit := tpReady } none none
        (some [9, 9]) 2).2 = { initState with transmit := tpReady } :=
  dlmstp_send_pdu_busy_rejected 501 { initState with transmit := tpReady }
    none none (some [9, 9]) 2 rfl

/-- C2: `dlmstp_send_pdu` returns a negative value exactly when the
payload is NULL, the length is zero or exceeds `MAX_MPDU`, or a transmit
packet is already pending; a rejected call leaves the state untouched, and
an accepted call returns the payload length and stages exactly that many
bytes in the now-pending transmit packet. -/
theorem dlmstp_send_pdu_return_spec (maxMPDU : Nat) (st : DlmstpState)
    (dest : Option BacnetAddress) (npdu : Option NpduData)
    (pdu : Option (List Nat)) (pdu_len : Nat) :
    ((dlmstp_send_pdu maxMPDU st dest npdu pdu pdu_len).1 < 0 ↔
      (pdu = none ∨ pdu_len = 0 ∨ maxMPDU < pdu_len ∨
        st.transmit.ready = true))
    ∧ ((dlmstp_send_pdu maxMPDU st dest npdu pdu pdu_len).1 < 0 →
      (dlmstp_send_pdu maxMPDU st dest npdu pdu pdu_len).2 = st)
    ∧ (0 ≤ (dlmstp_send_pdu maxMPDU st dest npdu pdu pdu_len).1 →
      (dlmstp_send_pdu maxMPDU st dest npdu pdu pdu_len).1 = (pdu_len : Int)
      ∧ (dlmstp_send_pdu maxMPDU st dest npdu pdu pdu_len).2.transmit.pdu_len
          = pdu_len
      ∧ (dlmstp_send_pdu maxMPDU st dest npdu pdu pdu_len).2.transmit.ready
          = true) := by
  cases pdu with
  | none =>
    refine ⟨by simp [dlmstp_send_pdu], fun _ => rfl, fun h => ?_⟩
    norm_num [dlmstp_send_pdu] at h
  | some p =>
    by_cases h1 : pdu_len = 0 ∨ maxMPDU < pdu_len
    · refine ⟨?_, fun _ => ?_, fun h => ?_⟩
      · simp [dlmstp_send_pdu, h1]
        tauto
      · simp [dlmstp_send_pdu, h1]
      · simp [dlmstp_send_pdu, h1] at h
    · by_cases h2 : st.transmit.ready = true
      · refine ⟨?_, fun _ => ?_, fun h => ?_⟩
        · simp [dlmstp_send_pdu, h1, h2]
        · simp [dlmstp_send_pdu, h1, h2]
        · simp [dlmstp_send_pdu, h1, h2] at h
      · refine ⟨?_, fun hneg => ?_, fun h => ?_⟩
        · simp [dlmstp_send_pdu, h1, h2]
        · simp [dlmstp_send_pdu, h1, h2] at hneg
          exact absurd hneg (by omega)
        · refine ⟨?_, ?_, ?_⟩ <;> simp [dlmstp_send_pdu, h1, h2]

/-- C2 witness: a zero-length send is rejected without touching state, and
a well-formed send is accepted, returning and staging its length. -/
theorem dlmstp_send_pdu_return_spec_witness :
    ((dlmstp_send_pdu 501 initState none none (some [1]) 0).1 < 0 ↔
      ((some [1] : Option (List Nat)) = none ∨ (0 : Nat) = 0 ∨ 501 < 0 ∨
        initState.transmit.ready = true))
    ∧ ((dlmstp_send_pdu 501 initState none none (some [1, 2, 3]) 3).1 = 3
      ∧ (dlmstp_send_pdu 501 initState none none
          (some [1, 2, 3]) 3).2.transmit.pdu_len = 3
      ∧ (dlmstp_send_pdu 501 initState none none
          (some [1, 2, 3]) 3).2.transmit.ready = true) :=
  ⟨(dlmstp_send_pdu_return_spec 501 initState none none (some [1]) 0).1,
    (dlmstp_send_pdu_return_spec 501 initState none none
      (some [1, 2, 3]) 3).2.2 (by decide)⟩

/-- C10: a valid send with a NULL destination pointer, or a destination
whose `mac_len` is not 1, does not fail: the frame is staged for the
broadcast address 0xFF and the call returns the payload length. -/
theorem dlmstp_send_pdu_defaults_broadcast (maxMPDU : Nat)
    (st : DlmstpState) (dest : Option BacnetAddress)
    (npdu : Option NpduData) (p : List Nat) (pdu_len : Nat)
    (hready : st.transmit.ready = false) (hlen0 : pdu_len ≠ 0)
    (hlen : pdu_len ≤ maxMPDU)
    (hdest : dest = none ∨ ∃ d, dest = some d ∧ d.mac_len ≠ 1) :
    (dlmstp_send_pdu maxMPDU st dest npdu (some p) pdu_len).1 =
      (pdu_len : Int)
    ∧ (dlmstp_send_pdu maxMPDU st dest npdu
        (some p) pdu_len).2.transmit.destination = MSTP_BROADCAST_ADDRESS
    ∧ (dlmstp_send_pdu maxMPDU st dest npdu
        (some p) pdu_len).2.transmit.ready = true := by
  have h1 : ¬(pdu_len = 0 ∨ maxMPDU < pdu_len) := by omega
  rcases hdest with rfl | ⟨d, rfl, hd⟩
  · refine ⟨?_, ?_, ?_⟩ <;> simp [dlmstp_send_pdu, h1, hready]
  · refine ⟨?_, ?_, ?_⟩ <;> simp [dlmstp_send_pdu, h1, hready, hd]

/-- C10 witness: a send with NULL destination is accepted and staged to
the broadcast MAC 0xFF. -/
theorem dlmstp_send_pdu_defaults_broadcast_witness :
    (dlmstp_send_pdu 501 initState none none (some [1, 2, 3]) 3).1 =
      ((3 : Nat) : Int)
    ∧ (dlmstp_send_pdu 501 initState none none
        (some [1, 2, 3]) 3).2.transmit.destination = MSTP_BROADCAST_ADDRESS
    ∧ (dlmstp_send_pdu 501 initState none none
        (some [1, 2, 3]) 3).2.transmit.ready = true :=
  dlmstp_send_pdu_defaults_broadcast 501 initState none none [1, 2, 3] 3
    rfl (by decide) (by decide) (Or.inl rfl)

/-- C6: `MSTP_Put_Receive` hands the received frame to the upper layer
(invokes `npdu_handler`) exactly when the destination is this station or
the broadcast address 0xFF, the frame type is a BACnet data frame
(expecting or not expecting a reply), and the data length is nonzero; in
particular a frame addressed elsewhere is never delivered upstream. -/
theorem MSTP_Put_Receive_delivery_iff (port : MstpPort)
    (g : ReceiveGlobals) :
    (MSTP_Put_Receive port g).delivered ≠ none ↔
      ((port.destinationAddress = port.thisStation ∨
          port.destinationAddress = MSTP_BROADCAST_ADDRESS)
        ∧ (port.frameType = .bacnetDataExpectingReply ∨
            port.frameType = .bacnetDataNotExpectingReply)
        ∧ 0 < port.dataLength) := by
  by_cases haddr : port.destinationAddress = port.thisStation ∨
      port.destinationAddress = MSTP_BROADCAST_ADDRESS
  · obtain ⟨ts, nm, ni, sil, da, sa, ft, dl, ib, ob, rg⟩ := port
    cases ft <;> simp_all [MSTP_Put_Receive] <;> split_ifs with h <;>
      simp [h]
  · simp [MSTP_Put_Receive, haddr]

/-- C7: when a transmit packet is pending, `MSTP_Get_Send` clears the
pending flag exactly when `MSTP_Create_Frame` reports a nonzero frame
length (which is returned to the caller); a zero frame length leaves the
staged packet pending and unmodified, and with nothing pending the call
returns zero without side effect — for every possible frame builder. -/
theorem MSTP_Get_Send_spec (cf : CreateFrameFn) (port : MstpPort)
    (tp : TransmitPacket) :
    (tp.ready = true →
      0 < cf port.outputBufferSize tp.frame_type tp.destination
        port.thisStation tp.pdu tp.pdu_len →
      MSTP_Get_Send cf port tp =
        (cf port.outputBufferSize tp.frame_type tp.destination
          port.thisStation tp.pdu tp.pdu_len, { tp with ready := false }))
    ∧ (tp.ready = true →
      cf port.outputBufferSize tp.frame_type tp.destination
        port.thisStation tp.pdu tp.pdu_len = 0 →
      MSTP_Get_Send cf port tp = (0, tp))
    ∧ (tp.ready = false → MSTP_Get_Send cf port tp = (0, tp)) := by
  refine ⟨fun hr hpos => ?_, fun hr hz => ?_, fun hr => ?_⟩
  · simp [MSTP_Get_Send, hr, hpos]
  · simp [MSTP_Get_Send, hr, hz]
  · simp [MSTP_Get_Send, hr]

/-- C7 witness: with a staged packet, a successful frame build (length 9)
clears the pending flag and returns 9; a failed build (length 0) keeps the
packet staged; with nothing staged the call is a no-op returning 0. -/
theorem MSTP_Get_Send_spec_witness :
    MSTP_Get_Send cfNine initState.port tpReady =
      (9, { tpReady with ready := false })
    ∧ MSTP_Get_Send cfZero initState.port tpReady = (0, tpReady)
    ∧ MSTP_Get_Send cfNine initState.port tpIdle = (0, tpIdle) :=
  ⟨(MSTP_Get_Send_spec cfNine initState.port tpReady).1 rfl (by decide),
    (MSTP_Get_Send_spec cfZero initState.port tpReady).2.1 rfl rfl,
    (MSTP_Get_Send_spec cfNine initState.port tpIdle).2.2 rfl⟩

/-- C8: the configuration setters preserve the range invariant (station
address 0 to 254, max master 0 to 127, max info frames at least 1) over
any sequence of calls; out-of-range arguments (mac above 254, max master
above 127, max info frames 0) leave the whole state unchanged, while
in-range arguments are applied. -/
theorem dlmstp_config_range_invariant :
    (∀ (cs : List ConfigCall) (st : DlmstpState),
      ConfigInv st → ConfigInv (applyConfigs cs st))
    ∧ (∀ (st : DlmstpState) (mac : Nat), 254 < mac →
        dlmstp_set_mac_address mac st = st)
    ∧ (∀ (st : DlmstpState) (m : Nat), 127 < m →
        dlmstp_set_max_master m st = st)
    ∧ (∀ (st : DlmstpState), dlmstp_set_max_info_frames 0 st = st)
    ∧ (∀ (st : DlmstpState) (mac : Nat), mac ≤ 254 →
        (dlmstp_set_mac_address mac st).thisStation = mac)
    ∧ (∀ (st : DlmstpState) (m : Nat), m ≤ 127 →
        (dlmstp_set_max_master m st).maxMaster = m)
    ∧ (∀ (st : DlmstpState) (n : Nat), 1 ≤ n →
        (dlmstp_set_max_info_frames n st).maxInfoFrames = n) := by
  refine ⟨applyConfigs_inv, fun st mac h => ?_, fun st m h => ?_,
    fun st => ?_, fun st mac h => ?_, fun st m h => ?_, fun st n h => ?_⟩
  · simp [dlmstp_set_mac_address, Nat.not_le.mpr h]
  · simp [dlmstp_set_max_master, Nat.not_le.mpr h]
  · simp [dlmstp_set_max_info_frames]
  · simp only [dlmstp_set_mac_address, if_pos h]
    split_ifs <;> rfl
  · simp [dlmstp_set_max_master, h]
  · simp [dlmstp_set_max_info_frames, h]

/-- C8 witness: a mixed sequence of in-range and out-of-range setter calls
keeps the invariant from the initial configuration, and a mac address of
255 is rejected without any state change. -/
theorem dlmstp_config_range_invariant_witness :
    ConfigInv (applyConfigs
      [ConfigCall.setMacAddress 42, ConfigCall.setMaxMaster 10,
        ConfigCall.setMaxInfoFrames 0, ConfigCall.setMaxMaster 200]
      initState)
    ∧ dlmstp_set_mac_address 255 initState = initState :=
  ⟨dlmstp_config_range_invariant.1 _ initState (by decide),
    dlmstp_config_range_invariant.2.1 initState 255 (by decide)⟩

/-- C9: a valid mac address (0 to 254) that differs from the station
address held by the state machine installs the new address in the port and
re-runs `MSTP_Init` (observed through the reset-generation counter), while
calling the setter with the address the state machine already holds only
refreshes the configured station address and performs no reset. -/
theorem dlmstp_set_mac_address_reset_spec (st : DlmstpState) (mac : Nat)
    (hmac : mac ≤ 254) :
    (mac ≠ st.port.thisStation →
      ((dlmstp_set_mac_address mac st).port.thisStation = mac
        ∧ (dlmstp_set_mac_address mac st).port.resetGen =
            st.port.resetGen + 1
        ∧ (dlmstp_set_mac_address mac st).thisStation = mac))
    ∧ (mac = st.port.thisStation →
      dlmstp_set_mac_address mac st = { st with thisStation := mac }) := by
  constructor
  · intro h
    refine ⟨?_, ?_, ?_⟩ <;>
      simp [dlmstp_set_mac_address, hmac, MSTP_Init, Ne.symm h]
  · intro h
    have hmac2 : st.port.thisStation ≤ 254 := h ▸ hmac
    simp [dlmstp_set_mac_address, h, hmac2]

/-- C9 witness: from the zero-initialized port, setting mac 2 installs it
and bumps the reset generation; setting mac 0 (the address the port
already holds) performs no reset and changes nothing else. -/
theorem dlmstp_set_mac_address_reset_spec_witness :
    ((dlmstp_set_mac_address 2 initState).port.thisStation = 2
      ∧ (dlmstp_set_mac_address 2 initState).port.resetGen =
          initState.port.resetGen + 1
      ∧ (dlmstp_set_mac_address 2 initState).thisStation = 2)
    ∧ dlmstp_set_mac_address 0 initState =
        { initState with thisStation := 0 } :=
  ⟨(dlmstp_set_mac_address_reset_spec initState 2 (by decide)).1 (by decide),
    (dlmstp_set_mac_address_reset_spec initState 0 (by decide)).2 rfl⟩

end BacnetMstp
